import Mathlib

/-
Verification of the TalkToMeKit Qwen3-TTS runner
(src/Sources/TTMService/Resources/qwen_tts_runner.py, the multi-mode runner,
and src/Sources/TTMPythonBridge/Resources/qwen_tts_runner.py, the single-mode
variant).

Modelling conventions:
- Python floats are modelled as exact rationals (ℚ).  All concrete inputs used
  in witnesses and counterexamples are dyadic rationals whose Python float
  arithmetic is exact, so the rational model agrees with the float code there.
- Python `int(x)` on a number truncates toward zero; this is `pyInt` below.
- Fallible Python code is modelled in `Except PyErr`; an uncaught Python
  exception is an `Except.error`.  External capabilities (the `qwen_tts`
  module, `from_pretrained`, the generation methods of a loaded model) are
  fields of an `Env` record, each an explicit function that may either return
  a value or raise.
- The process-global mutable variables `_MODEL_LOADED`, `_QWEN_MODEL`,
  `_ACTIVE_MODE`, `_ACTIVE_MODEL_ID` are threaded explicitly as `RunnerState`.
- The Python `wave` module (standard library, not repository code) writing a
  mono 16-bit PCM stream to a `BytesIO` buffer produces the standard 44-byte
  RIFF/WAVE header followed by the frame data; `wavContainer` models those
  bytes exactly.  `wave.Wave_write.setframerate` raises `wave.Error` on a
  non-positive rate, and `struct.pack('<L', ...)` raises on values outside
  32 bits; `wavWrite` models both guards.
-/

/-- Python exception values, as far as the runner distinguishes them.
`TypeError` is caught specially by the custom-voice and voice-clone retry
loops; everything else is only ever propagated or swallowed wholesale. -/
inductive PyErr where
  | typeError : PyErr
  | valueError : String → PyErr
  | runtimeError : String → PyErr
  | waveError : PyErr
  | structError : PyErr
  | thrown : String → PyErr
deriving DecidableEq, Repr

instance {ε α : Type} [DecidableEq ε] [DecidableEq α] : DecidableEq (Except ε α) := fun a b =>
  match a, b with
  | .ok x, .ok y =>
    if h : x = y then isTrue (by rw [h]) else isFalse (by intro hc; cases hc; exact h rfl)
  | .error x, .error y =>
    if h : x = y then isTrue (by rw [h]) else isFalse (by intro hc; cases hc; exact h rfl)
  | .ok _, .error _ => isFalse (by intro hc; cases hc)
  | .error _, .ok _ => isFalse (by intro hc; cases hc)

/-- Python values as they flow through the audio pipeline: numbers (ints and
floats, both modelled as ℚ), lists, tuples, tensor-like objects (anything
exposing `detach`/`tolist`; the constructor records the nested Python value
the conversion yields), mappings with the keys the extractor looks at
(`wav`, `sampling_rate`, `sample_rate`; `Option.none` marks an absent key),
raw byte strings, and `None`. -/
inductive PyData where
  | num : ℚ → PyData
  | list : List PyData → PyData
  | tuple : List PyData → PyData
  | tensor : PyData → PyData
  | dict : Option PyData → Option PyData → Option PyData → PyData
  | bytes : List Nat → PyData
  | none : PyData

/-- Python `int(x)` for a numeric `x`: truncation toward zero. -/
def pyInt (q : ℚ) : Int := if q < 0 then ⌈q⌉ else ⌊q⌋

/-- Python `int(x)` applied to an arbitrary value: succeeds on numbers,
raises `TypeError` otherwise (the pipeline only ever feeds it numbers or
malformed payloads). -/
def pyIntOf : PyData → Except PyErr Int
  | .num q => .ok (pyInt q)
  | _ => .error .typeError

/-- Characters stripped by Python `str.strip()` (the ASCII whitespace the
runner can meet in mode and model-id strings). -/
def pySpace (c : Char) : Bool :=
  c == ' ' || c == '\t' || c == '\n' || c == '\r'

/-- Python `str.strip()`. -/
def pyStrip (s : String) : String :=
  ⟨((s.data.dropWhile pySpace).reverse.dropWhile pySpace).reverse⟩

/-- Python `str.lower()` (ASCII; the registry keys are ASCII). -/
def pyLower (s : String) : String :=
  ⟨s.data.map Char.toLower⟩

/-- Two little-endian bytes of a 16-bit value (`struct.pack('<h', v)` after
reduction mod 2^16; callers only pass values in the signed 16-bit range). -/
def le16Int (v : Int) : List Nat :=
  [(v % 65536).toNat % 256, (v % 65536).toNat / 256]

/-- The bytes the Python `wave` module emits for a mono, 16-bit stream:
RIFF header, fmt chunk (PCM, 1 channel, 16 bits), data chunk, then the PCM
payload.  All multi-byte fields are little-endian. -/
def wavContainer (sr : Nat) (pcm : List Nat) : List Nat :=
  82 :: 73 :: 70 :: 70 ::
  (36 + pcm.length) % 256 :: (36 + pcm.length) / 256 % 256 ::
    (36 + pcm.length) / 65536 % 256 :: (36 + pcm.length) / 16777216 % 256 ::
  87 :: 65 :: 86 :: 69 ::
  102 :: 109 :: 116 :: 32 ::
  16 :: 0 :: 0 :: 0 ::
  1 :: 0 ::
  1 :: 0 ::
  sr % 256 :: sr / 256 % 256 :: sr / 65536 % 256 :: sr / 16777216 % 256 ::
  (2 * sr) % 256 :: (2 * sr) / 256 % 256 :: (2 * sr) / 65536 % 256 :: (2 * sr) / 16777216 % 256 ::
  2 :: 0 ::
  16 :: 0 ::
  100 :: 97 :: 116 :: 97 ::
  pcm.length % 256 :: pcm.length / 256 % 256 :: pcm.length / 65536 % 256 :: pcm.length / 16777216 % 256 ::
  pcm

/-- Writing a mono 16-bit stream through the `wave` module: `setframerate`
rejects non-positive rates, and the header fields (sample rate, byte rate,
chunk sizes) must fit `struct.pack('<L', ...)`. -/
def wavWrite (sampleRate : Int) (pcm : List Nat) : Except PyErr (List Nat) :=
  if sampleRate ≤ 0 then .error .waveError
  else if 4294967296 ≤ 2 * sampleRate ∨ (4294967296 : Int) ≤ 36 + pcm.length then .error .structError
  else .ok (wavContainer sampleRate.toNat pcm)

/-- Verification-side decoder for the WAV bytes: recovers the signed 16-bit
samples from the little-endian PCM payload. -/
def decodePcm16 : List Nat → Option (List Int)
  | [] => some []
  | b0 :: b1 :: rest =>
    (decodePcm16 rest).map fun ws =>
      (let u := b0 % 256 + 256 * (b1 % 256)
       if u < 32768 then (u : Int) else (u : Int) - 65536) :: ws
  | [_] => Option.none

/-- Verification-side decoder for a mono 16-bit WAV byte string: reads the
sample rate from the header and decodes the data section.  Independent of
`wavContainer`; used to state round-trip properties. -/
def decodeWav16Mono (bs : List Nat) : Option (Nat × List Int) :=
  if bs.length < 44 then Option.none
  else
    match (bs.drop 24).take 4 with
    | [a, b, c, d] =>
      (decodePcm16 (bs.drop 44)).map fun ws => (a + 256 * b + 65536 * c + 16777216 * d, ws)
    | _ => Option.none

namespace TTMService

/-- Default model id for `voice_design` (first registry entry). -/
def DEFAULT_VOICE_DESIGN_MODEL : String := "Qwen/Qwen3-TTS-12Hz-1.7B-VoiceDesign"

/-- Default model id for `custom_voice` (first registry entry). -/
def DEFAULT_CUSTOM_VOICE_MODEL : String := "Qwen/Qwen3-TTS-12Hz-0.6B-CustomVoice"

/-- Default model id for `voice_clone` (first registry entry). -/
def DEFAULT_VOICE_CLONE_MODEL : String := "Qwen/Qwen3-TTS-12Hz-0.6B-Base"

/-- The static MODEL_REGISTRY dict, as an association list preserving the
source's insertion (and hence iteration) order. -/
def MODEL_REGISTRY : List (String × List String) :=
  [("voice_design", [DEFAULT_VOICE_DESIGN_MODEL]),
   ("custom_voice", [DEFAULT_CUSTOM_VOICE_MODEL, "Qwen/Qwen3-TTS-12Hz-1.7B-CustomVoice"]),
   ("voice_clone", [DEFAULT_VOICE_CLONE_MODEL, "Qwen/Qwen3-TTS-12Hz-1.7B-Base"])]

/-- `MODEL_REGISTRY.get(mode, [])`. -/
def registryGet (m : String) : List String :=
  ((MODEL_REGISTRY.find? fun e => e.1 == m).map (·.2)).getD []

/-- `mode in MODEL_REGISTRY`. -/
def registryContains (m : String) : Bool :=
  (MODEL_REGISTRY.find? fun e => e.1 == m).isSome

/-- Which of the three voice-clone method/argument combinations is being
attempted (`generate_voice_clone` with `reference_audio`, with
`prompt_audio`, or `generate_base` with `prompt_audio`). -/
inductive CloneAttempt where
  | cloneRef : CloneAttempt
  | clonePrompt : CloneAttempt
  | basePrompt : CloneAttempt
deriving DecidableEq, Repr

/-- Keyword arguments of a `generate_custom_voice` call; `instruct = none`
models the call made without the `instruct` keyword. -/
structure CustomVoiceArgs where
  text : String
  language : String
  speaker : String
  instruct : Option String
deriving DecidableEq, Repr

/-- The runner's environment: configuration read from environment variables
at import time, plus the external capabilities it calls.  A capability that
raises is a function returning `Except.error`.  `qwenAvailable` is false when
the `qwen_tts` import fails or the module lacks `Qwen3TTSModel` (both make
`_create_model` return `None`); local-path resolution is folded into
`fromPretrained`, which is keyed by the model id.  `defaultModeValid` records
that the configured default mode names a registry mode — the code indexes
`MODEL_REGISTRY[mode]` unguardedly, so a default outside the registry would
raise `KeyError` on paths the specification does not contemplate. -/
structure Env where
  allowFallback : Bool
  allowCrossModeFallback : Bool
  defaultMode : String
  defaultLanguage : String
  defaultSpeaker : String
  qwenAvailable : Bool
  fromPretrained : String → Except PyErr Nat
  generateVoiceDesign : Nat → String → String → String → Except PyErr PyData
  generateCustomVoice : Nat → CustomVoiceArgs → Except PyErr PyData
  speakerQuery : Option (Nat → Except PyErr (List String))
  hasCloneMethod : Bool
  hasBaseMethod : Bool
  cloneCall : CloneAttempt → Nat → String → String → String → Except PyErr PyData
  tempPath : String
  defaultModeValid : registryContains defaultMode = true

/-- The four process-global lifecycle variables. -/
structure RunnerState where
  modelLoaded : Bool
  qwenModel : Option Nat
  activeMode : Option String
  activeModelId : Option String
deriving DecidableEq, Repr

/-- The initial (and fully cleared) lifecycle state: nothing loaded, no
handle, no active mode or model id. -/
def unloadedState : RunnerState :=
  ⟨false, Option.none, Option.none, Option.none⟩

/-- The reuse check shared by `load_model` and `_ensure_loaded`:
`_MODEL_LOADED and _QWEN_MODEL is not None and _ACTIVE_MODE == m and
_ACTIVE_MODEL_ID == mid`. -/
abbrev matchesActive (st : RunnerState) (m mid : String) : Prop :=
  st.modelLoaded = true ∧ st.qwenModel ≠ Option.none ∧
    st.activeMode = some m ∧ st.activeModelId = some mid

/-- `_resolve_mode`: fall back to the default mode on empty/absent input,
strip and lower-case, and degrade unknown modes to the (raw) default. -/
def _resolve_mode (env : Env) (mode : Option String) : String :=
  let base := match mode with
    | Option.none => env.defaultMode
    | some s => if s = "" then env.defaultMode else s
  let requested := pyLower (pyStrip base)
  if registryContains requested then requested else env.defaultMode

/-- `_resolve_model`: the stripped requested id if non-empty, else the mode's
first registry entry. -/
def _resolve_model (mode : String) (modelId : Option String) : String :=
  let requested := pyStrip (modelId.getD "")
  if requested = "" then (registryGet mode).headD "" else requested

/-- The final deduplication pass of `_candidates_for_mode`: keep the first
occurrence of each (mode, model-id) pair, tracking what has been seen. -/
def dedupPairs (seen : List (String × String)) : List (String × String) → List (String × String)
  | [] => []
  | e :: rest => if e ∈ seen then dedupPairs seen rest else e :: dedupPairs (e :: seen) rest

/-- `_candidates_for_mode`: requested pair first (when a model id was
requested), then the remaining same-mode registry entries, then — outside
strict mode, when cross-mode fallback is enabled — every other mode's
entries except the requested id, all deduplicated preserving first-seen
order. -/
def _candidates_for_mode (env : Env) (mode requestedModel : String) (strict : Bool) :
    List (String × String) :=
  let sameMode := registryGet mode
  let ordered :=
    (if requestedModel ≠ "" then [(mode, requestedModel)] else []) ++
    ((sameMode.filter fun m => m ≠ requestedModel).map fun m => (mode, m)) ++
    (if strict = false ∧ env.allowCrossModeFallback = true then
      (MODEL_REGISTRY.map fun e =>
        if e.1 = mode then []
        else (e.2.filter fun m => m ≠ requestedModel).map fun m => (e.1, m)).flatten
    else [])
  dedupPairs [] ordered

/-- `_silent_wav(sample_rate)`: `max(1, int(sample_rate * 0.35))` frames of
16-bit silence in a mono WAV container. -/
def _silent_wav (sampleRate : Int) : Except PyErr (List Nat) :=
  let frameCount := max 1 (pyInt ((sampleRate : ℚ) * (7 / 20)))
  wavWrite sampleRate (List.replicate (2 * frameCount.toNat) 0)

/-- `_flatten_numeric_samples`: tensor-like values are converted to their
nested-list form, lists and tuples are flattened recursively in order, and
anything else goes through `float(...)` — a number yields itself, a
non-numeric value raises. -/
def _flatten_numeric_samples : PyData → Except PyErr (List ℚ)
  | .num q => .ok [q]
  | .tensor t => _flatten_numeric_samples t
  | .list xs => flattenAux xs
  | .tuple xs => flattenAux xs
  | _ => .error .typeError
where
  /-- Flattening of the items of a list or tuple, left to right; the first
  item that fails aborts the whole conversion, as the Python loop would. -/
  flattenAux : List PyData → Except PyErr (List ℚ)
  | [] => .ok []
  | x :: xs =>
    match _flatten_numeric_samples x with
    | .error e => .error e
    | .ok a =>
      match flattenAux xs with
      | .error e => .error e
      | .ok b => .ok (a ++ b)

/-- `_to_wav_bytes(samples, sample_rate)`: flatten, clip each sample to
[-1.0, 1.0], scale by 32767 with `int(...)` (truncation toward zero), pack
each value as two little-endian bytes, and wrap in the WAV container. -/
def _to_wav_bytes (samples : PyData) (sampleRate : Int) : Except PyErr (List Nat) :=
  match _flatten_numeric_samples samples with
  | .error e => .error e
  | .ok flat =>
    let clipped := flat.map fun s => max (-1 : ℚ) (min 1 s)
    wavWrite sampleRate ((clipped.map fun s => le16Int (pyInt (s * 32767))).flatten)

/-- `_normalize_samples`: convert tensor-like input to its nested-list form,
turn a tuple into a list, then unwrap a singleton batch one level or
concatenate the items of a multi-item batch; anything else passes through. -/
def _normalize_samples (d : PyData) : PyData :=
  let d1 : PyData := match d with
    | .tensor t => t
    | x => x
  let d2 : PyData := match d1 with
    | .tuple xs => .list xs
    | x => x
  match d2 with
  | .list (x :: xs) =>
    match x with
    | .list _ | .tuple _ =>
      (match xs with
       | [] => x
       | _ =>
         PyData.list (((x :: xs).map fun it =>
           match it with
           | PyData.list ys => ys
           | PyData.tuple ys => ys
           | other => [other]).flatten))
    | _ => .list (x :: xs)
  | other => other

/-- `_extract_audio_and_sample_rate(output, default)`: a mapping yields its
`wav` field and `int` of its `sampling_rate`/`sample_rate`/default; a pair
whose second component is numeric yields (first, int(second)); anything else
is the payload itself with the default rate. -/
def _extract_audio_and_sample_rate (output : PyData) (defaultSampleRate : Int) :
    Except PyErr (PyData × Int) :=
  match output with
  | .dict wav srate srate2 =>
    match pyIntOf ((srate.getD (srate2.getD (.num (defaultSampleRate : ℚ))))) with
    | .error e => .error e
    | .ok n => .ok (wav.getD .none, n)
  | .tuple [first, second] =>
    match second with
    | .num q => .ok (first, pyInt q)
    | _ => .ok (.tuple [first, second], defaultSampleRate)
  | out => .ok (out, defaultSampleRate)

/-- `_create_model(model_id)`: `None` when the `qwen_tts` module or its
`Qwen3TTSModel` class is unavailable; otherwise the external
`from_pretrained` call, whose exceptions are NOT caught here. -/
def _create_model (env : Env) (modelId : String) : Except PyErr (Option Nat) :=
  if env.qwenAvailable = true then (env.fromPretrained modelId).map some
  else .ok Option.none

/-- The candidate loop inside `load_model`: a candidate that yields no model
is skipped; the first success stores the handle and the candidate's own
(mode, model id) pair; exhaustion clears the state and reports the
fallback-allowed flag; an exception from `_create_model` propagates with the
(unchanged) entry state. -/
def loadLoop (env : Env) (st : RunnerState) :
    List (String × String) → Except (PyErr × RunnerState) (RunnerState × Bool)
  | [] => .ok (unloadedState, env.allowFallback)
  | (cm, cmodel) :: rest =>
    match _create_model env cmodel with
    | .error e => .error (e, st)
    | .ok Option.none => loadLoop env st rest
    | .ok (some h) => .ok (⟨true, some h, some cm, some cmodel⟩, true)

/-- `load_model(mode, model_id, strict)`: resolve mode and model, short-cut
when the exact resolved pair is already loaded, otherwise run the candidate
loop.  `strict` is the string flag of the source (`"1"` enables strict). -/
def load_model (env : Env) (st : RunnerState) (mode modelId strict : Option String) :
    Except (PyErr × RunnerState) (RunnerState × Bool) :=
  let rm := _resolve_mode env mode
  let rmod := _resolve_model rm modelId
  if matchesActive st rm rmod then .ok (st, true)
  else loadLoop env st (_candidates_for_mode env rm rmod (strict == some "1"))

/-- `unload_model()`: clear all four globals, always succeed. -/
def unload_model (_st : RunnerState) : RunnerState × Bool :=
  (unloadedState, true)

/-- `is_model_loaded()`. -/
def is_model_loaded (st : RunnerState) : Bool :=
  st.modelLoaded

/-- `_ensure_loaded(mode, model_id)`: no-op success on the exact active pair,
otherwise delegate to `load_model` in non-strict mode. -/
def _ensure_loaded (env : Env) (st : RunnerState) (mode modelId : String) :
    Except (PyErr × RunnerState) (RunnerState × Bool) :=
  if matchesActive st mode modelId then .ok (st, true)
  else load_model env st (some mode) (some modelId) (some "0")

/-- Shared tail of the generators: extract payload and rate from the model
output, pass raw bytes through, encode a non-`None` payload via normalize
and `_to_wav_bytes`, and report `None` otherwise.  Exceptions propagate. -/
def encodeOutput (output : PyData) : Except PyErr (Option (List Nat)) :=
  match _extract_audio_and_sample_rate output 24000 with
  | .error e => .error e
  | .ok (payload, sr) =>
    match payload with
    | .bytes bs => .ok (some bs)
    | .none => .ok Option.none
    | p => (_to_wav_bytes (_normalize_samples p) sr).map some

/-- `_generate_voice_design`: `None` without a loaded handle; otherwise call
the model's `generate_voice_design` (uncaught exceptions propagate) and
encode its output. -/
def _generate_voice_design (env : Env) (st : RunnerState) (text instruct language : String) :
    Except PyErr (Option (List Nat)) :=
  match st.qwenModel with
  | Option.none => .ok Option.none
  | some h =>
    match env.generateVoiceDesign h text language instruct with
    | .error e => .error e
    | .ok output => encodeOutput output

/-- `_generate_custom_voice`: resolve the speaker (default on empty,
lower-cased, replaced by the first supported speaker when the model's
speaker query — called without any exception guard — says the requested one
is unsupported), call `generate_custom_voice` with `instruct` only when
non-empty, retry once without `instruct` on `TypeError`, and encode. -/
def _generate_custom_voice (env : Env) (st : RunnerState)
    (text speaker : String) (instruct : Option String) (language : String) :
    Except PyErr (Option (List Nat)) :=
  match st.qwenModel with
  | Option.none => .ok Option.none
  | some h =>
    let requested := pyLower (if speaker = "" then env.defaultSpeaker else speaker)
    let speakerRes : Except PyErr String :=
      match env.speakerQuery with
      | Option.none => .ok requested
      | some q =>
        match q h with
        | .error e => .error e
        | .ok supported =>
          match supported with
          | [] => .ok requested
          | s :: rest => .ok (if requested ∈ s :: rest then requested else s)
    match speakerRes with
    | .error e => .error e
    | .ok finalSpeaker =>
      let kwargs : CustomVoiceArgs :=
        ⟨text, language, finalSpeaker,
         match instruct with
         | some i => if i = "" then Option.none else some i
         | Option.none => Option.none⟩
      let callRes : Except PyErr PyData :=
        match env.generateCustomVoice h kwargs with
        | .error .typeError => env.generateCustomVoice h { kwargs with instruct := Option.none }
        | r => r
      match callRes with
      | .error e => .error e
      | .ok output => encodeOutput output

/-- The candidate loop of `_generate_voice_clone`: each available
method/argument combination is tried in order inside a `try`-block that
catches only `TypeError` (from the call itself, from `int(...)` in the
extractor, or from `float(...)` in the encoder) and moves on; an output whose
payload is `None` also moves on; other exceptions propagate. -/
def cloneLoop (env : Env) (h : Nat) (text language : String) :
    List CloneAttempt → Except PyErr (Option (List Nat))
  | [] => .ok Option.none
  | a :: rest =>
    let available := match a with
      | .cloneRef => env.hasCloneMethod
      | .clonePrompt => env.hasCloneMethod
      | .basePrompt => env.hasBaseMethod
    if available = true then
      match env.cloneCall a h text language env.tempPath with
      | .error .typeError => cloneLoop env h text language rest
      | .error e => .error e
      | .ok output =>
        match encodeOutput output with
        | .error .typeError => cloneLoop env h text language rest
        | .error e => .error e
        | .ok Option.none => cloneLoop env h text language rest
        | .ok (some bs) => .ok (some bs)
    else cloneLoop env h text language rest

/-- `_generate_voice_clone`: `None` without a loaded handle; otherwise the
reference audio is written to a transient path (removed afterwards; the file
system round-trip has no observable effect on the result) and the three
method/argument combinations are tried in order. -/
def _generate_voice_clone (env : Env) (st : RunnerState) (text : String)
    (_referenceAudio : List Nat) (language : String) : Except PyErr (Option (List Nat)) :=
  match st.qwenModel with
  | Option.none => .ok Option.none
  | some h => cloneLoop env h text language [.cloneRef, .clonePrompt, .basePrompt]

/-- Shared tail of the three synthesis entry points, after input validation
and resolution: ensure the model is loaded (a false result is a
`RuntimeError`), run the generator, return its audio, else silence when
fallback is allowed, else a `RuntimeError` with the given message. -/
def synthesisTail (env : Env) (st : RunnerState) (mode modelId : String)
    (gen : RunnerState → Except PyErr (Option (List Nat)))
    (sampleRate : Int) (failMessage : String) :
    Except (PyErr × RunnerState) (RunnerState × List Nat) :=
  match _ensure_loaded env st mode modelId with
  | .error e => .error e
  | .ok (st', okFlag) =>
    if okFlag = false then
      .error (.runtimeError "Qwen3-TTS runtime unavailable: failed to load model", st')
    else
      match gen st' with
      | .error e => .error (e, st')
      | .ok (some audio) => .ok (st', audio)
      | .ok Option.none =>
        if env.allowFallback = true then
          match _silent_wav sampleRate with
          | .error e => .error (e, st')
          | .ok bs => .ok (st', bs)
        else .error (.runtimeError failMessage, st')

/-- `synthesize_voice_design(text, instruct, language, sample_rate, model_id)`. -/
def synthesize_voice_design (env : Env) (st : RunnerState)
    (text instruct language : String) (sampleRate : Int) (modelId : String) :
    Except (PyErr × RunnerState) (RunnerState × List Nat) :=
  if pyStrip text = "" then .error (.valueError "text must not be empty", st)
  else
    let resolvedModel := _resolve_model "voice_design" (some modelId)
    let resolvedLanguage := if language = "" then env.defaultLanguage else language
    synthesisTail env st "voice_design" resolvedModel
      (fun st' => _generate_voice_design env st' text instruct resolvedLanguage)
      sampleRate "Qwen3-TTS VoiceDesign synthesis failed"

/-- `synthesize_custom_voice(text, speaker, instruct, language, sample_rate, model_id)`. -/
def synthesize_custom_voice (env : Env) (st : RunnerState)
    (text speaker instruct language : String) (sampleRate : Int) (modelId : String) :
    Except (PyErr × RunnerState) (RunnerState × List Nat) :=
  if pyStrip text = "" then .error (.valueError "text must not be empty", st)
  else
    let resolvedModel := _resolve_model "custom_voice" (some modelId)
    let resolvedLanguage := if language = "" then env.defaultLanguage else language
    synthesisTail env st "custom_voice" resolvedModel
      (fun st' => _generate_custom_voice env st' text
        (if speaker = "" then env.defaultSpeaker else speaker) (some instruct) resolvedLanguage)
      sampleRate "Qwen3-TTS CustomVoice synthesis failed"

/-- `synthesize_voice_clone(text, reference_audio, language, sample_rate, model_id)`. -/
def synthesize_voice_clone (env : Env) (st : RunnerState)
    (text : String) (referenceAudio : List Nat) (language : String)
    (sampleRate : Int) (modelId : String) :
    Except (PyErr × RunnerState) (RunnerState × List Nat) :=
  if pyStrip text = "" then .error (.valueError "text must not be empty", st)
  else if referenceAudio = [] then .error (.valueError "reference_audio must not be empty", st)
  else
    let resolvedModel := _resolve_model "voice_clone" (some modelId)
    let resolvedLanguage := if language = "" then env.defaultLanguage else language
    synthesisTail env st "voice_clone" resolvedModel
      (fun st' => _generate_voice_clone env st' text referenceAudio resolvedLanguage)
      sampleRate "Qwen3-TTS VoiceClone synthesis failed"

/-- The read-only tail of `get_supported_speakers` after the strict load: a
failed load, a missing handle, a missing or raising speaker query all yield
an empty list; otherwise the non-empty speaker names. -/
def speakersFrom (env : Env) (st' : RunnerState) (okFlag : Bool) : RunnerState × List String :=
  if okFlag = false then (st', [])
  else
    match st'.qwenModel with
    | Option.none => (st', [])
    | some h =>
      match env.speakerQuery with
      | Option.none => (st', [])
      | some q =>
        match q h with
        | .error _ => (st', [])
        | .ok speakers => (st', speakers.filter fun s => s ≠ "")

/-- `get_supported_speakers(mode, model_id)`: empty for any mode other than
`custom_voice`; otherwise a STRICT `load_model` call (a lifecycle side
effect), then the model's speaker query with every exception mapped to an
empty list, keeping the non-empty names. -/
def get_supported_speakers (env : Env) (st : RunnerState) (mode modelId : Option String) :
    Except (PyErr × RunnerState) (RunnerState × List String) :=
  let resolvedMode := _resolve_mode env mode
  if resolvedMode ≠ "custom_voice" then .ok (st, [])
  else
    let resolvedModel := _resolve_model resolvedMode modelId
    match load_model env st (some resolvedMode) (some resolvedModel) (some "1") with
    | .error e => .error e
    | .ok (st', okFlag) => .ok (speakersFrom env st' okFlag)

/-- Baseline concrete environment for witnesses: the source's default
configuration (fallback disabled, cross-mode fallback enabled) with the
`qwen_tts` runtime unavailable. -/
def envNoQwen : Env where
  allowFallback := false
  allowCrossModeFallback := true
  defaultMode := "voice_design"
  defaultLanguage := "English"
  defaultSpeaker := "ryan"
  qwenAvailable := false
  fromPretrained := fun _ => .error (.thrown "OSError")
  generateVoiceDesign := fun _ _ _ _ => .ok .none
  generateCustomVoice := fun _ _ => .ok .none
  speakerQuery := Option.none
  hasCloneMethod := false
  hasBaseMethod := false
  cloneCall := fun _ _ _ _ _ => .ok .none
  tempPath := "/tmp/reference.wav"
  defaultModeValid := by decide

/-- Environment whose runtime is importable but whose external
`from_pretrained` call raises (the usual failure mode of a missing or broken
model checkout). -/
def envRaising : Env :=
  { envNoQwen with qwenAvailable := true }

/-- Like `envRaising`, with the fallback flag enabled. -/
def envRaisingFallback : Env :=
  { envRaising with allowFallback := true }

/-- A state with a voice-design model loaded, as left behind by a successful
default voice-design load. -/
def loadedVD : RunnerState :=
  ⟨true, some 7, some "voice_design", some DEFAULT_VOICE_DESIGN_MODEL⟩

lemma dedupPairs_sound (l : List (String × String)) :
    ∀ seen, (dedupPairs seen l).Nodup ∧ ∀ e ∈ dedupPairs seen l, e ∉ seen := by
  induction l with
  | nil => intro seen; simp [dedupPairs]
  | cons e rest ih =>
    intro seen
    by_cases he : e ∈ seen
    · simpa [dedupPairs, he] using ih seen
    · simp only [dedupPairs, if_neg he]
      obtain ⟨hnd, hmem⟩ := ih (e :: seen)
      refine ⟨List.nodup_cons.mpr ⟨fun hc => (hmem e hc) (List.mem_cons_self e seen), hnd⟩, ?_⟩
      intro x hx
      rcases List.mem_cons.mp hx with h1 | h2
      · subst h1; exact he
      · intro hxs; exact (hmem x h2) (List.mem_cons_of_mem _ hxs)

lemma dedupPairs_nil_cons (x : String × String) (l : List (String × String)) :
    dedupPairs [] (x :: l) = x :: dedupPairs [x] l := by
  simp [dedupPairs]

/-- C4: for every mode, requested model id and strict flag, the resolved
candidate list contains no (mode, model-id) pair twice, and whenever a
requested model id is supplied the pair (mode, requested id) is the first
element. -/
theorem candidates_nodup_and_requested_first :
    (∀ (env : Env) (mode requested : String) (strict : Bool),
       (_candidates_for_mode env mode requested strict).Nodup) ∧
    (∀ (env : Env) (mode requested : String) (strict : Bool), requested ≠ "" →
       (_candidates_for_mode env mode requested strict).head? = some (mode, requested)) := by
  constructor
  · intro env mode requested strict
    exact (dedupPairs_sound _ []).1
  · intro env mode requested strict h
    simp only [_candidates_for_mode, if_pos h, List.singleton_append, List.cons_append]
    rw [dedupPairs_nil_cons]
    rfl

/-- Closed instantiation of `candidates_nodup_and_requested_first`. -/
theorem candidates_nodup_and_requested_first_witness :
    (_candidates_for_mode envNoQwen "custom_voice" "My/Model" false).Nodup ∧
    (_candidates_for_mode envNoQwen "custom_voice" "My/Model" false).head? =
      some ("custom_voice", "My/Model") :=
  ⟨candidates_nodup_and_requested_first.1 envNoQwen "custom_voice" "My/Model" false,
   candidates_nodup_and_requested_first.2 envNoQwen "custom_voice" "My/Model" false (by decide)⟩

lemma loadLoop_all_none (env : Env) (st : RunnerState) :
    ∀ l : List (String × String), (∀ p ∈ l, _create_model env p.2 = .ok Option.none) →
      loadLoop env st l = .ok (unloadedState, env.allowFallback) := by
  intro l
  induction l with
  | nil => intro _; rfl
  | cons p rest ih =>
    intro h
    obtain ⟨cm, cmodel⟩ := p
    have h1 := h (cm, cmodel) (List.mem_cons_self _ _)
    simp only [loadLoop, h1]
    exact ih fun q hq => h q (List.mem_cons_of_mem _ hq)

/-- C1: when the resolved candidate list is exhausted — every candidate's
instantiation yields no model — `load_model` clears the lifecycle state to
`unloadedState` (no handle, loaded flag false, no active mode or model id)
and returns the fallback-allowed flag: success if and only if fallback is
configured.  The short-circuit hypothesis `hns` says the call actually
enters the candidate loop. -/
theorem load_model_exhaustion_clears_and_returns_fallback
    (env : Env) (st : RunnerState) (mode modelId strict : Option String)
    (hall : ∀ p ∈ _candidates_for_mode env (_resolve_mode env mode)
              (_resolve_model (_resolve_mode env mode) modelId) (strict == some "1"),
            _create_model env p.2 = .ok Option.none)
    (hns : ¬ matchesActive st (_resolve_mode env mode)
              (_resolve_model (_resolve_mode env mode) modelId)) :
    load_model env st mode modelId strict = .ok (unloadedState, env.allowFallback) := by
  simp only [load_model]
  rw [if_neg hns]
  exact loadLoop_all_none env st _ hall

/-- Closed instantiation of
`load_model_exhaustion_clears_and_returns_fallback` (fallback disabled, so
the call fails). -/
theorem load_model_exhaustion_witness :
    load_model envNoQwen unloadedState (some "voice_design") Option.none Option.none =
      .ok (unloadedState, envNoQwen.allowFallback) :=
  load_model_exhaustion_clears_and_returns_fallback envNoQwen unloadedState
    (some "voice_design") Option.none Option.none (by decide) (by decide)

/-- C2: when a model is loaded and the active pair equals the resolved
(mode, model id) being requested, `load_model` returns success with the
state unchanged.  The statement holds for EVERY environment — in particular
for every model-creation capability — so no instantiation can have been
attempted or observed. -/
theorem load_model_idempotent_short_circuit
    (env : Env) (st : RunnerState) (mode modelId strict : Option String) (h : Nat)
    (h1 : st.modelLoaded = true) (h2 : st.qwenModel = some h)
    (h3 : st.activeMode = some (_resolve_mode env mode))
    (h4 : st.activeModelId = some (_resolve_model (_resolve_mode env mode) modelId)) :
    load_model env st mode modelId strict = .ok (st, true) := by
  have hm : matchesActive st (_resolve_mode env mode)
      (_resolve_model (_resolve_mode env mode) modelId) := ⟨h1, by simp [h2], h3, h4⟩
  simp only [load_model]
  rw [if_pos hm]

/-- Closed instantiation of `load_model_idempotent_short_circuit`. -/
theorem load_model_idempotent_witness :
    load_model envNoQwen loadedVD (some "voice_design") Option.none Option.none =
      .ok (loadedVD, true) :=
  load_model_idempotent_short_circuit envNoQwen loadedVD (some "voice_design")
    Option.none Option.none 7 rfl rfl (by decide) (by decide)

/-- C3 counterexample: an exception raised by the external model-creation
call (`from_pretrained`) during the first candidate's instantiation
propagates out of `load_model` — it is not absorbed, and iteration does not
proceed to the remaining candidates.  Refutes the claim that no individual
candidate's instantiation error ever reaches `load_model`'s caller. -/
theorem load_model_propagates_create_exception :
    load_model envRaising unloadedState (some "voice_design") Option.none Option.none =
      .error (.thrown "OSError", unloadedState) := by
  decide

/-- C3 amended: a candidate whose instantiation yields no model — the
`qwen_tts` module or its model class being unavailable, the only failures
`_create_model` maps to `None` — is absorbed and iteration proceeds to the
next candidate, the loop's result being that of the remaining candidates.
(Exceptions raised by the external creation call propagate instead; see
`load_model_propagates_create_exception`.) -/
theorem load_candidate_no_model_absorbed (env : Env) (st : RunnerState)
    (c : String × String) (rest : List (String × String))
    (h : _create_model env c.2 = .ok Option.none) :
    loadLoop env st (c :: rest) = loadLoop env st rest := by
  obtain ⟨cm, cmodel⟩ := c
  simp only [loadLoop, h]

/-- Closed instantiation of `load_candidate_no_model_absorbed`. -/
theorem load_candidate_no_model_absorbed_witness :
    loadLoop envNoQwen unloadedState [("voice_design", "A/B"), ("custom_voice", "C/D")] =
      loadLoop envNoQwen unloadedState [("custom_voice", "C/D")] :=
  load_candidate_no_model_absorbed envNoQwen unloadedState ("voice_design", "A/B")
    [("custom_voice", "C/D")] (by decide)

/-- The lifecycle state left behind by a runner call, whether it returned or
raised. -/
def stateAfter {α : Type} (r : Except (PyErr × RunnerState) (RunnerState × α)) : RunnerState :=
  match r with
  | .error (_, s) => s
  | .ok (s, _) => s

/-- States reachable from the initial module state by any sequence of
`load_model`, `unload_model` and `_ensure_loaded` calls against a fixed
environment. -/
inductive Reachable (env : Env) : RunnerState → Prop where
  | start : Reachable env unloadedState
  | load (st : RunnerState) (mode modelId strict : Option String) :
      Reachable env st → Reachable env (stateAfter (load_model env st mode modelId strict))
  | unload (st : RunnerState) : Reachable env st → Reachable env (unload_model st).1
  | ensure (st : RunnerState) (mode modelId : String) :
      Reachable env st → Reachable env (stateAfter (_ensure_loaded env st mode modelId))

/-- A (mode, model id) pair that some invocation of the candidate resolver
can produce: there are request arguments (mode, model id, strict) whose
resolved candidate list contains the pair.  The candidate loop of
`load_model` is the only place the active pair is set, and it iterates
exactly such a list, so the pair recorded next to a handle is always one of
these — taken as a unit from one candidate, never recombined. -/
def CandidatePair (env : Env) (m mid : String) : Prop :=
  ∃ (mode modelId : Option String) (strict : Bool),
    (m, mid) ∈ _candidates_for_mode env (_resolve_mode env mode)
      (_resolve_model (_resolve_mode env mode) modelId) strict

/-- The lifecycle invariant: the loaded flag holds exactly when a handle is
present; a present handle carries a recorded active (mode, model id) that is
a candidate pair the resolver can produce (`CandidatePair`), whose model id
the environment's creation capability maps to exactly that handle; an absent
handle means no active mode or model id. -/
def StateInv (env : Env) (st : RunnerState) : Prop :=
  (st.modelLoaded = true ↔ ∃ h, st.qwenModel = some h) ∧
  (∀ h, st.qwenModel = some h →
     ∃ m mid, st.activeMode = some m ∧ st.activeModelId = some mid ∧
       _create_model env mid = .ok (some h) ∧ CandidatePair env m mid) ∧
  (st.qwenModel = Option.none → st.activeMode = Option.none ∧ st.activeModelId = Option.none)

lemma stateInv_unloaded (env : Env) : StateInv env unloadedState := by
  refine ⟨by simp [unloadedState], ?_, by simp [unloadedState]⟩
  intro h hh
  simp [unloadedState] at hh

lemma stateInv_loadLoop (env : Env) (st : RunnerState) (hst : StateInv env st) :
    ∀ l : List (String × String), (∀ p ∈ l, CandidatePair env p.1 p.2) →
      StateInv env (stateAfter (loadLoop env st l)) := by
  intro l
  induction l with
  | nil =>
    intro _
    simpa [loadLoop, stateAfter] using stateInv_unloaded env
  | cons p rest ih =>
    intro hcand
    obtain ⟨cm, cmodel⟩ := p
    simp only [loadLoop]
    rcases hc : _create_model env cmodel with e | o
    · simpa [stateAfter] using hst
    · cases o with
      | none => simpa using ih fun q hq => hcand q (List.mem_cons_of_mem _ hq)
      | some h =>
        refine ⟨by simp [stateAfter], ?_, by simp [stateAfter]⟩
        intro h' hh'
        simp only [stateAfter] at hh'
        refine ⟨cm, cmodel, by simp [stateAfter], by simp [stateAfter], ?_, ?_⟩
        · cases hh'
          exact hc
        · exact hcand (cm, cmodel) (List.mem_cons_self _ _)

lemma stateInv_load (env : Env) (st : RunnerState) (hst : StateInv env st)
    (mode modelId strict : Option String) :
    StateInv env (stateAfter (load_model env st mode modelId strict)) := by
  simp only [load_model]
  by_cases hm : matchesActive st (_resolve_mode env mode)
    (_resolve_model (_resolve_mode env mode) modelId)
  · rw [if_pos hm]; simpa [stateAfter] using hst
  · rw [if_neg hm]
    refine stateInv_loadLoop env st hst _ ?_
    intro p hp
    exact ⟨mode, modelId, strict == some "1", by simpa using hp⟩

/-- C5: in every state reachable by any sequence of `load_model`,
`unload_model` and `_ensure_loaded` operations, the loaded flag is true
exactly when a model handle is present; a present handle carries a recorded
active (mode, model id) that was taken as a unit from a resolver-produced
candidate list (`CandidatePair`) and whose model id the creation capability
maps to exactly that handle — i.e. the recorded pair is the candidate pair
actually instantiated for the handle; an absent handle means no active mode
or model id is recorded. -/
theorem reachable_state_invariant (env : Env) (st : RunnerState) (h : Reachable env st) :
    StateInv env st := by
  induction h with
  | start => exact stateInv_unloaded env
  | load st mode modelId strict _ ih => exact stateInv_load env st ih mode modelId strict
  | unload st _ _ => exact stateInv_unloaded env
  | ensure st mode modelId _ ih =>
    simp only [_ensure_loaded]
    by_cases hm : matchesActive st mode modelId
    · rw [if_pos hm]; simpa [stateAfter] using ih
    · rw [if_neg hm]; exact stateInv_load env st ih _ _ _

/-- Environment whose runtime is available and whose creation capability
succeeds (handle 7) for every model id. -/
def envLoadable : Env :=
  { envNoQwen with qwenAvailable := true, fromPretrained := fun _ => .ok 7 }

/-- Closed instantiation of `reachable_state_invariant` at the state reached
by an actual successful load: the handle 7 is present with the voice-design
candidate pair recorded, so the loaded branch of the invariant is exercised
non-vacuously. -/
theorem reachable_state_invariant_witness :
    StateInv envLoadable (stateAfter
      (load_model envLoadable unloadedState (some "voice_design") Option.none Option.none)) :=
  reachable_state_invariant envLoadable _
    (Reachable.load unloadedState (some "voice_design") Option.none Option.none Reachable.start)

lemma flattenAux_map_num (l : List ℚ) :
    _flatten_numeric_samples.flattenAux (l.map PyData.num) = .ok l := by
  induction l with
  | nil => rfl
  | cons q qs ih =>
    simp only [List.map_cons, _flatten_numeric_samples.flattenAux, _flatten_numeric_samples, ih]
    rfl

lemma flatten_map_num (l : List ℚ) :
    _flatten_numeric_samples (.list (l.map PyData.num)) = .ok l := by
  simp only [_flatten_numeric_samples, flattenAux_map_num]

lemma decode_word (w : Int) (h1 : -32768 ≤ w) (h2 : w ≤ 32767) :
    (if ((w % 65536).toNat % 256 % 256 + 256 * ((w % 65536).toNat / 256 % 256)) < 32768
     then (((w % 65536).toNat % 256 % 256 +
            256 * ((w % 65536).toNat / 256 % 256) : Nat) : Int)
     else (((w % 65536).toNat % 256 % 256 +
            256 * ((w % 65536).toNat / 256 % 256) : Nat) : Int) - 65536) = w := by
  have h0 : 0 ≤ w % 65536 := Int.emod_nonneg w (by norm_num)
  have hlt : w % 65536 < 65536 := Int.emod_lt_of_pos w (by norm_num)
  have hu : ((w % 65536).toNat : Int) = w % 65536 := Int.toNat_of_nonneg h0
  have hn : (w % 65536).toNat < 65536 := by omega
  have hval : (w % 65536).toNat % 256 % 256 +
      256 * ((w % 65536).toNat / 256 % 256) = (w % 65536).toNat := by omega
  rcases le_or_lt 0 w with hc | hc
  · have hww : w % 65536 = w := by omega
    simp only [hval]
    split <;> omega
  · have hww : w % 65536 = w + 65536 := by omega
    simp only [hval]
    split <;> omega

lemma decodePcm16_flatten_fused {α : Type} (g : α → Int) (l : List α)
    (h : ∀ x ∈ l, -32768 ≤ g x ∧ g x ≤ 32767) :
    decodePcm16 ((l.map fun x => le16Int (g x)).flatten) = some (l.map g) := by
  induction l with
  | nil => rfl
  | cons a rest ih =>
    have ha := h a (List.mem_cons_self _ _)
    have hrest := ih fun x hx => h x (List.mem_cons_of_mem _ hx)
    have hstep : (((a :: rest).map fun x => le16Int (g x))).flatten =
        ((g a % 65536).toNat % 256) :: ((g a % 65536).toNat / 256) ::
          ((rest.map fun x => le16Int (g x)).flatten) := by
      simp [le16Int]
    rw [hstep]
    simp only [decodePcm16, hrest, Option.map_some', List.map_cons]
    rw [decode_word (g a) ha.1 ha.2]

lemma decodeWav_container (sr : Nat) (pcm : List Nat) (hsr : sr < 4294967296) :
    decodeWav16Mono (wavContainer sr pcm) = (decodePcm16 pcm).map fun ws => (sr, ws) := by
  have hlen : (wavContainer sr pcm).length = 44 + pcm.length := by
    simp [wavContainer]; omega
  have hc : ¬ ((wavContainer sr pcm).length < 44) := by rw [hlen]; omega
  have hdrop : (wavContainer sr pcm).drop 44 = pcm := rfl
  have htake : ((wavContainer sr pcm).drop 24).take 4 =
      [sr % 256, sr / 256 % 256, sr / 65536 % 256, sr / 16777216 % 256] := rfl
  have harith : sr % 256 + 256 * (sr / 256 % 256) + 65536 * (sr / 65536 % 256) +
      16777216 * (sr / 16777216 % 256) = sr := by omega
  simp only [decodeWav16Mono, hdrop, htake, if_neg hc, harith]

lemma clip_scale_bounds (s : ℚ) :
    -32768 ≤ pyInt (max (-1 : ℚ) (min 1 s) * 32767) ∧
      pyInt (max (-1 : ℚ) (min 1 s) * 32767) ≤ 32767 := by
  have hc1 : (-1 : ℚ) ≤ max (-1 : ℚ) (min 1 s) := le_max_left _ _
  have hc2 : max (-1 : ℚ) (min 1 s) ≤ 1 := max_le (by norm_num) (min_le_left _ _)
  have hlo : (-32767 : ℚ) ≤ max (-1 : ℚ) (min 1 s) * 32767 := by nlinarith
  have hhi : max (-1 : ℚ) (min 1 s) * 32767 ≤ 32767 := by nlinarith
  have hceil1 : (-32768 : Int) ≤ ⌈max (-1 : ℚ) (min 1 s) * 32767⌉ := by
    have h := Int.le_ceil (max (-1 : ℚ) (min 1 s) * 32767)
    have h5 : ((-32768 : Int) : ℚ) ≤ (⌈max (-1 : ℚ) (min 1 s) * 32767⌉ : ℚ) := by
      push_cast
      linarith
    exact_mod_cast h5
  have hceil2 : ⌈max (-1 : ℚ) (min 1 s) * 32767⌉ ≤ (32767 : Int) := by
    apply Int.ceil_le.mpr
    push_cast
    linarith
  have hfloor1 : (-32768 : Int) ≤ ⌊max (-1 : ℚ) (min 1 s) * 32767⌋ := by
    apply Int.le_floor.mpr
    push_cast
    linarith
  have hfloor2 : ⌊max (-1 : ℚ) (min 1 s) * 32767⌋ ≤ (32767 : Int) := by
    have h := Int.floor_le (max (-1 : ℚ) (min 1 s) * 32767)
    have h5 : (⌊max (-1 : ℚ) (min 1 s) * 32767⌋ : ℚ) ≤ ((32767 : Int) : ℚ) := by
      push_cast
      linarith
    exact_mod_cast h5
  by_cases hneg : max (-1 : ℚ) (min 1 s) * 32767 < 0
  · simp only [pyInt, if_pos hneg]
    exact ⟨hceil1, hceil2⟩
  · simp only [pyInt, if_neg hneg]
    exact ⟨hfloor1, hfloor2⟩

lemma flatten_pairs_length {α : Type} (f : α → List Nat) (hf : ∀ x, (f x).length = 2)
    (l : List α) : ((l.map f).flatten).length = 2 * l.length := by
  induction l with
  | nil => rfl
  | cons x xs ih =>
    simp only [List.map_cons, List.flatten_cons, List.length_append, hf, ih, List.length_cons]
    omega

lemma map_clip_scale (l : List ℚ) :
    ((l.map fun s => max (-1 : ℚ) (min 1 s)).map fun s => le16Int (pyInt (s * 32767))) =
      l.map fun s => le16Int (pyInt (max (-1 : ℚ) (min 1 s) * 32767)) := by
  induction l with
  | nil => rfl
  | cons a l ih => simp only [List.map_cons, ih]

/-- Modelled from the spec's words (§4.5, claim C6): identical to the
source-derived `_to_wav_bytes` except that each clipped sample is scaled via
`round(sample * 32767)` instead of the source's `int(sample * 32767.0)`.
Stated only to compare the claimed scaling with the implemented one. -/
def _to_wav_bytes_roundSpec (samples : PyData) (sampleRate : Int) : Except PyErr (List Nat) :=
  match _flatten_numeric_samples samples with
  | .error e => .error e
  | .ok flat =>
    let clipped := flat.map fun s => max (-1 : ℚ) (min 1 s)
    wavWrite sampleRate ((clipped.map fun s => le16Int (round (s * 32767))).flatten)

/-- C6 counterexample: at the sample 0.5 (whose float arithmetic is exact:
0.5 * 32767.0 = 16383.5), the source's `int(...)` truncates to 16383 while
the claimed `round(...)` yields 16384, so the produced WAV bytes differ from
the claimed ones. -/
theorem to_wav_differs_from_round_spec :
    _to_wav_bytes (.list [.num (1 / 2)]) 8000 ≠
      _to_wav_bytes_roundSpec (.list [.num (1 / 2)]) 8000 := by
  have hflat : _flatten_numeric_samples (.list [.num (1 / 2)]) = .ok [(1 : ℚ) / 2] := by
    simpa using flatten_map_num [(1 : ℚ) / 2]
  have hclip : max (-1 : ℚ) (min 1 ((1 : ℚ) / 2)) = 1 / 2 := by
    rw [min_eq_right (by norm_num), max_eq_right (by norm_num)]
  have hpy : pyInt ((1 : ℚ) / 2 * 32767) = 16383 := by
    rw [pyInt, if_neg (by norm_num)]
    rw [Int.floor_eq_iff]
    constructor <;> norm_num
  have hround : round ((1 : ℚ) / 2 * 32767) = 16384 := by
    rw [round_eq]
    rw [show ((1 : ℚ) / 2 * 32767 + 1 / 2 : ℚ) = ((16384 : Int) : ℚ) by norm_num]
    exact Int.floor_intCast 16384
  have hL : _to_wav_bytes (.list [.num (1 / 2)]) 8000 = .ok (wavContainer 8000 (le16Int 16383)) := by
    simp only [_to_wav_bytes, hflat, List.map_cons, List.map_nil, hclip, hpy]
    rfl
  have hR : _to_wav_bytes_roundSpec (.list [.num (1 / 2)]) 8000 =
      .ok (wavContainer 8000 (le16Int 16384)) := by
    simp only [_to_wav_bytes_roundSpec, hflat, List.map_cons, List.map_nil, hclip, hround]
    rfl
  rw [hL, hR]
  decide

/-- C6 amended: `_to_wav_bytes` clips each sample to [-1.0, 1.0] and scales
via `int(sample * 32767)` — truncation toward zero, not `round` — packing
the 16-bit values little-endian into a mono 16-bit PCM WAV container at the
given sample rate; decoding the produced bytes returns exactly the clipped,
truncated sample stream and the given rate. -/
theorem to_wav_clips_truncates_packs (samples : List ℚ) (sr : Int)
    (h1 : 0 < sr) (h2 : 2 * sr < 4294967296)
    (h3 : (36 : Int) + 2 * samples.length < 4294967296) :
    _to_wav_bytes (.list (samples.map PyData.num)) sr =
      .ok (wavContainer sr.toNat
        ((samples.map fun s => le16Int (pyInt (max (-1 : ℚ) (min 1 s) * 32767))).flatten)) ∧
    decodeWav16Mono (wavContainer sr.toNat
        ((samples.map fun s => le16Int (pyInt (max (-1 : ℚ) (min 1 s) * 32767))).flatten)) =
      some (sr.toNat, samples.map fun s => pyInt (max (-1 : ℚ) (min 1 s) * 32767)) := by
  constructor
  · have hlen : ((samples.map fun s =>
        le16Int (pyInt (max (-1 : ℚ) (min 1 s) * 32767))).flatten).length
        = 2 * samples.length :=
      flatten_pairs_length (fun s : ℚ => le16Int (pyInt (max (-1 : ℚ) (min 1 s) * 32767)))
        (fun _ => rfl) samples
    simp only [_to_wav_bytes, flatten_map_num, map_clip_scale, wavWrite]
    rw [if_neg (by omega), if_neg (by rw [hlen]; push_cast; omega)]
  · have hb : ∀ x ∈ samples, -32768 ≤ pyInt (max (-1 : ℚ) (min 1 x) * 32767) ∧
        pyInt (max (-1 : ℚ) (min 1 x) * 32767) ≤ 32767 := fun x _ => clip_scale_bounds x
    rw [decodeWav_container _ _ (by omega),
      decodePcm16_flatten_fused (fun s => pyInt (max (-1 : ℚ) (min 1 s) * 32767)) samples hb]
    rfl

/-- Closed instantiation of `to_wav_clips_truncates_packs`, showing 1.5
clipped to 1.0 and -2.0 clipped to -1.0 before scaling. -/
theorem to_wav_clips_truncates_packs_witness :
    _to_wav_bytes (.list ([(3 : ℚ) / 2, -2, 1 / 2].map PyData.num)) 4 =
      .ok (wavContainer (4 : Int).toNat
        (([(3 : ℚ) / 2, -2, 1 / 2].map fun s =>
            le16Int (pyInt (max (-1 : ℚ) (min 1 s) * 32767))).flatten)) ∧
    decodeWav16Mono (wavContainer (4 : Int).toNat
        (([(3 : ℚ) / 2, -2, 1 / 2].map fun s =>
            le16Int (pyInt (max (-1 : ℚ) (min 1 s) * 32767))).flatten)) =
      some ((4 : Int).toNat,
        [(3 : ℚ) / 2, -2, 1 / 2].map fun s => pyInt (max (-1 : ℚ) (min 1 s) * 32767)) :=
  to_wav_clips_truncates_packs [(3 : ℚ) / 2, -2, 1 / 2] 4 (by decide) (by decide) (by decide)

/-- C7: every synthesis entry point rejects empty or whitespace-only text
with a `ValueError`, in every environment (so regardless of the fallback
configuration) and with the lifecycle state unchanged (the check precedes any
model load or generation); `synthesize_voice_clone` additionally rejects
empty reference audio. -/
theorem synthesis_empty_input_validation :
    (∀ (env : Env) (st : RunnerState) (text instruct speaker language : String)
       (sr : Int) (mid : String) (refAudio : List Nat), pyStrip text = "" →
       synthesize_voice_design env st text instruct language sr mid =
         .error (.valueError "text must not be empty", st) ∧
       synthesize_custom_voice env st text speaker instruct language sr mid =
         .error (.valueError "text must not be empty", st) ∧
       synthesize_voice_clone env st text refAudio language sr mid =
         .error (.valueError "text must not be empty", st)) ∧
    (∀ (env : Env) (st : RunnerState) (text language : String) (sr : Int) (mid : String),
       pyStrip text ≠ "" →
       synthesize_voice_clone env st text [] language sr mid =
         .error (.valueError "reference_audio must not be empty", st)) := by
  constructor
  · intro env st text instruct speaker language sr mid refAudio h
    refine ⟨?_, ?_, ?_⟩ <;>
      simp [synthesize_voice_design, synthesize_custom_voice, synthesize_voice_clone, h]
  · intro env st text language sr mid h
    simp [synthesize_voice_clone, h]

/-- Closed instantiation of `synthesis_empty_input_validation`. -/
theorem synthesis_empty_input_validation_witness :
    (synthesize_voice_design envNoQwen unloadedState " " "calm" "English" 24000 "" =
       .error (.valueError "text must not be empty", unloadedState) ∧
     synthesize_custom_voice envNoQwen unloadedState " " "ryan" "calm" "English" 24000 "" =
       .error (.valueError "text must not be empty", unloadedState) ∧
     synthesize_voice_clone envNoQwen unloadedState " " [1] "English" 24000 "" =
       .error (.valueError "text must not be empty", unloadedState)) ∧
    synthesize_voice_clone envNoQwen unloadedState "hello" [] "English" 24000 "" =
      .error (.valueError "reference_audio must not be empty", unloadedState) :=
  ⟨synthesis_empty_input_validation.1 envNoQwen unloadedState " " "calm" "ryan" "English"
     24000 "" [1] (by decide),
   synthesis_empty_input_validation.2 envNoQwen unloadedState "hello" "English"
     24000 "" (by decide)⟩

/-- C8 counterexample: with fallback enabled and no loadable model — the
creation capability raising for every candidate, the common failure mode of
a broken model checkout — `synthesize_voice_design` does not return silence:
the exception propagates out of the load loop and aborts the call. -/
theorem synthesize_fallback_enabled_can_raise :
    synthesize_voice_design envRaisingFallback unloadedState "hello" "" "" 24000 "" =
      .error (.thrown "OSError", unloadedState) := by
  decide

lemma create_none_of_no_qwen (env : Env) (hq : env.qwenAvailable = false) (m : String) :
    _create_model env m = .ok Option.none := by
  simp [_create_model, hq]

lemma ensure_no_qwen (env : Env) (st : RunnerState) (mode mid : String)
    (hq : env.qwenAvailable = false) (hm : st.qwenModel = Option.none) :
    _ensure_loaded env st mode mid = .ok (unloadedState, env.allowFallback) := by
  have hmatch1 : ¬ matchesActive st mode mid := fun hmm => hmm.2.1 hm
  have hmatch2 : ¬ matchesActive st (_resolve_mode env (some mode))
      (_resolve_model (_resolve_mode env (some mode)) (some mid)) := fun hmm => hmm.2.1 hm
  rw [_ensure_loaded, if_neg hmatch1]
  simp only [load_model]
  rw [if_neg hmatch2]
  exact loadLoop_all_none env st _ fun p _ => create_none_of_no_qwen env hq p.2

lemma silent_wav_eval (sr : Int) (h1 : 0 < sr) (h2 : 36 + 2 * sr < 4294967296) :
    _silent_wav sr = .ok (wavContainer sr.toNat
      (List.replicate (2 * (max 1 (pyInt ((sr : ℚ) * (7 / 20)))).toNat) 0)) := by
  have hq0 : (0 : ℚ) ≤ (sr : ℚ) * (7 / 20) := by
    have : (0 : ℚ) ≤ (sr : ℚ) := by exact_mod_cast h1.le
    nlinarith
  have hpy : pyInt ((sr : ℚ) * (7 / 20)) = ⌊(sr : ℚ) * (7 / 20)⌋ := by
    rw [pyInt, if_neg (not_lt.mpr hq0)]
  have hle : ⌊(sr : ℚ) * (7 / 20)⌋ ≤ sr := by
    have hx : (sr : ℚ) * (7 / 20) ≤ ((sr : Int) : ℚ) := by
      have : (0 : ℚ) ≤ (sr : ℚ) := by exact_mod_cast h1.le
      nlinarith
    calc ⌊(sr : ℚ) * (7 / 20)⌋ ≤ ⌊((sr : Int) : ℚ)⌋ := Int.floor_le_floor hx
      _ = sr := Int.floor_intCast sr
  have hfr : max 1 (pyInt ((sr : ℚ) * (7 / 20))) ≤ sr := by
    rw [hpy]
    exact max_le (by omega) hle
  simp only [_silent_wav, wavWrite, List.length_replicate]
  rw [if_neg (by omega), if_neg (by push_cast; omega)]

lemma decode_zeros (n : Nat) : decodePcm16 (List.replicate (2 * n) 0) = some (List.replicate n 0) := by
  induction n with
  | zero => rfl
  | succ k ih =>
    have h2 : 2 * (k + 1) = 2 * k + 1 + 1 := by ring
    rw [h2, List.replicate_succ, List.replicate_succ]
    simp only [decodePcm16, ih, Option.map_some']
    simp [List.replicate_succ]

lemma decode_silent (sr n : Nat) (hsr : sr < 4294967296) :
    decodeWav16Mono (wavContainer sr (List.replicate (2 * n) 0)) =
      some (sr, List.replicate n 0) := by
  rw [decodeWav_container sr _ hsr, decode_zeros n]
  rfl

/-- The silent payload `_silent_wav` produces for a valid sample rate:
`max(1, int(sample_rate * 0.35))` all-zero 16-bit frames in a mono WAV
container at that rate (verification-side abbreviation). -/
def silentBytes (sr : Int) : List Nat :=
  wavContainer sr.toNat (List.replicate (2 * (max 1 (pyInt ((sr : ℚ) * (7 / 20)))).toNat) 0)

lemma synthesisTail_fallback_silent (env : Env) (st st' : RunnerState) (mode mid : String)
    (gen : RunnerState → Except PyErr (Option (List Nat))) (sr : Int) (failMessage : String)
    (hf : env.allowFallback = true)
    (hens : _ensure_loaded env st mode mid = .ok (st', true))
    (hgen : gen st' = .ok Option.none)
    (h1 : 0 < sr) (h2 : 36 + 2 * sr < 4294967296) :
    synthesisTail env st mode mid gen sr failMessage = .ok (st', silentBytes sr) := by
  rw [synthesisTail, hens]
  simp [hf, hgen, silent_wav_eval sr h1 h2, silentBytes]

/-- Environment like `envNoQwen` (runtime unavailable, so every candidate
load yields no model) but with the fallback flag enabled. -/
def envNoQwenFallback : Env :=
  { envNoQwen with allowFallback := true }

/-- Environment with fallback enabled whose runtime loads successfully
(every candidate creation yields handle 7) but whose generation capabilities
return `None`, so a model is held yet no usable audio is ever produced. -/
def envGenNone : Env :=
  { envLoadable with allowFallback := true }

/-- The state left by a successful default custom-voice load in an
environment whose creation capability returns handle 7. -/
def loadedCV : RunnerState :=
  ⟨true, some 7, some "custom_voice", some DEFAULT_CUSTOM_VOICE_MODEL⟩

/-- The state left by a successful default voice-clone load in an
environment whose creation capability returns handle 7. -/
def loadedVC : RunnerState :=
  ⟨true, some 7, some "voice_clone", some DEFAULT_VOICE_CLONE_MODEL⟩

/-- C8 amended: for every synthesis call where fallback is enabled and the
pipeline produces no usable audio without raising, the entry point returns a
silent mono 16-bit PCM WAV at the requested sample rate containing
`max(1, int(sample_rate * 0.35))` all-zero frames (≈ 0.35 s).  The first
three conjuncts cover, for each entry point, every such run: the ensure step
returns success with some state `st'` — whether by reusing or loading a
model, or with no model at all when exhausted None-failing loads report
success via the fallback flag — and the generation step on `st'` yields no
audio.  The fourth conjunct spells out the no-model-loadable instance of
the claim's parenthetical.  The final conjunct decodes the silence.  (What
the claim loses is only the raising path forced by the counterexample
`synthesize_fallback_enabled_can_raise`: a candidate creation that raises
aborts the call instead.) -/
theorem synthesize_fallback_silent_wav (env : Env) (st : RunnerState)
    (text instruct speaker language : String) (refAudio : List Nat) (sr : Int) (mid : String)
    (hf : env.allowFallback = true) (ht : pyStrip text ≠ "") (hr : refAudio ≠ [])
    (h1 : 0 < sr) (h2 : 36 + 2 * sr < 4294967296) :
    (∀ st' : RunnerState,
       _ensure_loaded env st "voice_design" (_resolve_model "voice_design" (some mid)) =
         .ok (st', true) →
       _generate_voice_design env st' text instruct
         (if language = "" then env.defaultLanguage else language) = .ok Option.none →
       synthesize_voice_design env st text instruct language sr mid =
         .ok (st', silentBytes sr)) ∧
    (∀ st' : RunnerState,
       _ensure_loaded env st "custom_voice" (_resolve_model "custom_voice" (some mid)) =
         .ok (st', true) →
       _generate_custom_voice env st' text
         (if speaker = "" then env.defaultSpeaker else speaker) (some instruct)
         (if language = "" then env.defaultLanguage else language) = .ok Option.none →
       synthesize_custom_voice env st text speaker instruct language sr mid =
         .ok (st', silentBytes sr)) ∧
    (∀ st' : RunnerState,
       _ensure_loaded env st "voice_clone" (_resolve_model "voice_clone" (some mid)) =
         .ok (st', true) →
       _generate_voice_clone env st' text refAudio
         (if language = "" then env.defaultLanguage else language) = .ok Option.none →
       synthesize_voice_clone env st text refAudio language sr mid =
         .ok (st', silentBytes sr)) ∧
    (env.qwenAvailable = false → st.qwenModel = Option.none →
       synthesize_voice_design env st text instruct language sr mid =
         .ok (unloadedState, silentBytes sr)) ∧
    decodeWav16Mono (silentBytes sr) =
      some (sr.toNat, List.replicate (max 1 (pyInt ((sr : ℚ) * (7 / 20)))).toNat 0) := by
  refine ⟨?_, ?_, ?_, ?_, ?_⟩
  · intro st' hens hgen
    rw [synthesize_voice_design, if_neg ht]
    exact synthesisTail_fallback_silent env st st' _ _ _ sr _ hf hens hgen h1 h2
  · intro st' hens hgen
    rw [synthesize_custom_voice, if_neg ht]
    exact synthesisTail_fallback_silent env st st' _ _ _ sr _ hf hens hgen h1 h2
  · intro st' hens hgen
    rw [synthesize_voice_clone, if_neg ht, if_neg hr]
    exact synthesisTail_fallback_silent env st st' _ _ _ sr _ hf hens hgen h1 h2
  · intro hq hm
    rw [synthesize_voice_design, if_neg ht]
    have hens := ensure_no_qwen env st "voice_design"
      (_resolve_model "voice_design" (some mid)) hq hm
    rw [hf] at hens
    exact synthesisTail_fallback_silent env st unloadedState _ _ _ sr _ hf hens rfl h1 h2
  · simp only [silentBytes]
    exact decode_silent sr.toNat _ (by omega)

/-- Closed instantiation of `synthesize_fallback_silent_wav` at sample rate
20 (7 silent frames), exercising both scenarios: a held (voice design) or
freshly loaded (custom voice, voice clone) model whose generation yields no
audio, and — for voice design — no loadable model at all. -/
theorem synthesize_fallback_silent_wav_witness :
    synthesize_voice_design envGenNone loadedVD "hi" "" "" 20 "" =
      .ok (loadedVD, silentBytes 20) ∧
    synthesize_custom_voice envGenNone loadedVD "hi" "" "" "" 20 "" =
      .ok (loadedCV, silentBytes 20) ∧
    synthesize_voice_clone envGenNone loadedVD "hi" [1] "" 20 "" =
      .ok (loadedVC, silentBytes 20) ∧
    synthesize_voice_design envNoQwenFallback unloadedState "hi" "" "" 20 "" =
      .ok (unloadedState, silentBytes 20) ∧
    decodeWav16Mono (silentBytes 20) =
      some ((20 : Int).toNat,
        List.replicate (max 1 (pyInt (((20 : Int) : ℚ) * (7 / 20)))).toNat 0) :=
  ⟨(synthesize_fallback_silent_wav envGenNone loadedVD "hi" "" "" "" [1] 20 ""
      rfl (by decide) (by decide) (by decide) (by decide)).1
      loadedVD (by decide) (by decide),
   (synthesize_fallback_silent_wav envGenNone loadedVD "hi" "" "" "" [1] 20 ""
      rfl (by decide) (by decide) (by decide) (by decide)).2.1
      loadedCV (by decide) (by decide),
   (synthesize_fallback_silent_wav envGenNone loadedVD "hi" "" "" "" [1] 20 ""
      rfl (by decide) (by decide) (by decide) (by decide)).2.2.1
      loadedVC (by decide) (by decide),
   (synthesize_fallback_silent_wav envNoQwenFallback unloadedState "hi" "" "" "" [1] 20 ""
      rfl (by decide) (by decide) (by decide) (by decide)).2.2.2.1 rfl rfl,
   (synthesize_fallback_silent_wav envNoQwenFallback unloadedState "hi" "" "" "" [1] 20 ""
      rfl (by decide) (by decide) (by decide) (by decide)).2.2.2.2⟩

lemma resolve_mode_custom (env : Env) : _resolve_mode env (some "custom_voice") = "custom_voice" := by
  have hbase : (if ("custom_voice" : String) = "" then env.defaultMode else "custom_voice") =
      "custom_voice" := if_neg (by decide)
  simp only [_resolve_mode, hbase]
  rw [show pyLower (pyStrip "custom_voice") = "custom_voice" from by decide]
  rw [if_pos (by decide)]

lemma speakersFrom_fst (env : Env) (st' : RunnerState) (f : Bool) :
    (speakersFrom env st' f).1 = st' := by
  unfold speakersFrom
  repeat' split
  all_goals rfl

lemma speakersFrom_unloaded (env : Env) (f : Bool) :
    speakersFrom env unloadedState f = (unloadedState, []) := by
  unfold speakersFrom
  split <;> rfl

/-- C9: `get_supported_speakers` is not a pure query.  First, whenever the
requested mode resolves to `custom_voice`, the lifecycle state it leaves
behind is exactly the state left by a strict `load_model` call on the
resolved pair — the query loads (and hence can replace) the active model as
a side effect.  Second, concretely: when the creation capability yields no
model for every candidate and the currently active pair is not the resolved
`custom_voice` pair, the call clears a previously held model handle and
active pair while merely returning a list (here empty) of speaker names. -/
theorem speakers_query_strict_load_side_effect :
    (∀ (env : Env) (st : RunnerState) (mode modelId : Option String),
       _resolve_mode env mode = "custom_voice" →
       stateAfter (get_supported_speakers env st mode modelId) =
         stateAfter (load_model env st (some "custom_voice")
           (some (_resolve_model "custom_voice" modelId)) (some "1"))) ∧
    (∀ (env : Env) (st : RunnerState) (mode modelId : Option String) (h : Nat),
       env.qwenAvailable = false → _resolve_mode env mode = "custom_voice" →
       st.activeMode ≠ some "custom_voice" → st.qwenModel = some h →
       get_supported_speakers env st mode modelId = .ok (unloadedState, []) ∧
         unloadedState ≠ st) := by
  constructor
  · intro env st mode modelId hmode
    simp only [get_supported_speakers, hmode]
    rw [if_neg (by simp)]
    rcases hload : load_model env st (some "custom_voice")
        (some (_resolve_model "custom_voice" modelId)) (some "1") with e | p
    · rfl
    · obtain ⟨st', flag⟩ := p
      simp [stateAfter, speakersFrom_fst]
  · intro env st mode modelId h hq hmode hactive hm
    constructor
    · simp only [get_supported_speakers, hmode]
      rw [if_neg (by simp)]
      have hmatch : ¬ matchesActive st (_resolve_mode env (some "custom_voice"))
          (_resolve_model (_resolve_mode env (some "custom_voice"))
            (some (_resolve_model "custom_voice" modelId))) := by
        rw [resolve_mode_custom]
        intro hmm
        exact hactive hmm.2.2.1
      have hloop := loadLoop_all_none env st
        (_candidates_for_mode env (_resolve_mode env (some "custom_voice"))
          (_resolve_model (_resolve_mode env (some "custom_voice"))
            (some (_resolve_model "custom_voice" modelId)))
          ((some "1" : Option String) == some "1"))
        (fun p _ => create_none_of_no_qwen env hq p.2)
      simp only [load_model, if_neg hmatch, hloop, speakersFrom_unloaded]
    · intro heq
      rw [← heq] at hm
      simp [unloadedState] at hm

/-- Closed instantiation of `speakers_query_strict_load_side_effect`: a
loaded voice-design model is cleared by a speakers query for
`custom_voice`. -/
theorem speakers_query_strict_load_side_effect_witness :
    stateAfter (get_supported_speakers envNoQwen loadedVD (some "custom_voice") Option.none) =
      stateAfter (load_model envNoQwen loadedVD (some "custom_voice")
        (some (_resolve_model "custom_voice" Option.none)) (some "1")) ∧
    (get_supported_speakers envNoQwen loadedVD (some "custom_voice") Option.none =
        .ok (unloadedState, []) ∧ unloadedState ≠ loadedVD) :=
  ⟨speakers_query_strict_load_side_effect.1 envNoQwen loadedVD (some "custom_voice")
     Option.none (by decide),
   speakers_query_strict_load_side_effect.2 envNoQwen loadedVD (some "custom_voice")
     Option.none 7 rfl (by decide) (by decide) rfl⟩

end TTMService

namespace TTMPythonBridge

/-- Silent-WAV helper of the single-mode runner
(src/Sources/TTMPythonBridge/Resources/qwen_tts_runner.py): `max(1,
int(sample_rate * 0.35))` frames of 16-bit silence in a mono WAV
container. -/
def _silent_wav (sampleRate : Int) : Except PyErr (List Nat) :=
  let frameCount := max 1 (pyInt ((sampleRate : ℚ) * (7 / 20)))
  wavWrite sampleRate (List.replicate (2 * frameCount.toNat) 0)

/-- Sample-flattening helper of the single-mode runner: tensor-like values
are converted to their nested-list form, lists and tuples are flattened
recursively in order, and anything else goes through `float(...)`. -/
def _flatten_numeric_samples : PyData → Except PyErr (List ℚ)
  | .num q => .ok [q]
  | .tensor t => _flatten_numeric_samples t
  | .list xs => flattenAux xs
  | .tuple xs => flattenAux xs
  | _ => .error .typeError
where
  /-- Flattening of the items of a list or tuple, left to right. -/
  flattenAux : List PyData → Except PyErr (List ℚ)
  | [] => .ok []
  | x :: xs =>
    match _flatten_numeric_samples x with
    | .error e => .error e
    | .ok a =>
      match flattenAux xs with
      | .error e => .error e
      | .ok b => .ok (a ++ b)

/-- WAV-encoding helper of the single-mode runner: flatten, clip to
[-1.0, 1.0], scale by 32767 with `int(...)`, pack little-endian, wrap in a
WAV container. -/
def _to_wav_bytes (samples : PyData) (sampleRate : Int) : Except PyErr (List Nat) :=
  match _flatten_numeric_samples samples with
  | .error e => .error e
  | .ok flat =>
    let clipped := flat.map fun s => max (-1 : ℚ) (min 1 s)
    wavWrite sampleRate ((clipped.map fun s => le16Int (pyInt (s * 32767))).flatten)

/-- Batch-normalisation helper of the single-mode runner: tensor conversion,
tuple to list, then singleton-batch unwrap or multi-item concatenation. -/
def _normalize_samples (d : PyData) : PyData :=
  let d1 : PyData := match d with
    | .tensor t => t
    | x => x
  let d2 : PyData := match d1 with
    | .tuple xs => .list xs
    | x => x
  match d2 with
  | .list (x :: xs) =>
    match x with
    | .list _ | .tuple _ =>
      (match xs with
       | [] => x
       | _ =>
         PyData.list (((x :: xs).map fun it =>
           match it with
           | PyData.list ys => ys
           | PyData.tuple ys => ys
           | other => [other]).flatten))
    | _ => .list (x :: xs)
  | other => other

/-- Output-extraction helper of the single-mode runner: mapping,
numeric-second pair, or passthrough with the default rate. -/
def _extract_audio_and_sample_rate (output : PyData) (defaultSampleRate : Int) :
    Except PyErr (PyData × Int) :=
  match output with
  | .dict wav srate srate2 =>
    match pyIntOf ((srate.getD (srate2.getD (.num (defaultSampleRate : ℚ))))) with
    | .error e => .error e
    | .ok n => .ok (wav.getD .none, n)
  | .tuple [first, second] =>
    match second with
    | .num q => .ok (first, pyInt q)
    | _ => .ok (.tuple [first, second], defaultSampleRate)
  | out => .ok (out, defaultSampleRate)

end TTMPythonBridge

mutual

lemma service_flatten_eq_bridge : ∀ d : PyData,
    TTMService._flatten_numeric_samples d = TTMPythonBridge._flatten_numeric_samples d
  | .num _ => rfl
  | .tensor t => by
    show TTMService._flatten_numeric_samples t = TTMPythonBridge._flatten_numeric_samples t
    exact service_flatten_eq_bridge t
  | .list xs => service_flattenAux_eq_bridge xs
  | .tuple xs => service_flattenAux_eq_bridge xs
  | .dict _ _ _ => rfl
  | .bytes _ => rfl
  | .none => rfl

lemma service_flattenAux_eq_bridge : ∀ l : List PyData,
    TTMService._flatten_numeric_samples.flattenAux l =
      TTMPythonBridge._flatten_numeric_samples.flattenAux l
  | [] => rfl
  | x :: xs => by
    show (match TTMService._flatten_numeric_samples x with
          | Except.error e => Except.error e
          | Except.ok a =>
            match TTMService._flatten_numeric_samples.flattenAux xs with
            | Except.error e => Except.error e
            | Except.ok b => Except.ok (a ++ b)) =
        (match TTMPythonBridge._flatten_numeric_samples x with
          | Except.error e => Except.error e
          | Except.ok a =>
            match TTMPythonBridge._flatten_numeric_samples.flattenAux xs with
            | Except.error e => Except.error e
            | Except.ok b => Except.ok (a ++ b))
    rw [service_flatten_eq_bridge x, service_flattenAux_eq_bridge xs]

end

/-- C10: the audio-pipeline helpers of the single-mode variant
(`TTMPythonBridge`) are extensionally equal to their identically named
counterparts in the multi-mode runner (`TTMService`): on every input they
return the same result.  (The two Python files' definitions are textually
identical up to comments.) -/
theorem audio_helpers_extensionally_equal :
    (∀ sr : Int, TTMService._silent_wav sr = TTMPythonBridge._silent_wav sr) ∧
    (∀ d : PyData,
       TTMService._flatten_numeric_samples d = TTMPythonBridge._flatten_numeric_samples d) ∧
    (∀ (d : PyData) (sr : Int),
       TTMService._to_wav_bytes d sr = TTMPythonBridge._to_wav_bytes d sr) ∧
    (∀ d : PyData, TTMService._normalize_samples d = TTMPythonBridge._normalize_samples d) ∧
    (∀ (d : PyData) (sr : Int),
       TTMService._extract_audio_and_sample_rate d sr =
         TTMPythonBridge._extract_audio_and_sample_rate d sr) := by
  refine ⟨fun sr => rfl, service_flatten_eq_bridge, fun d sr => ?_, fun d => rfl, fun d sr => rfl⟩
  rw [TTMService._to_wav_bytes, TTMPythonBridge._to_wav_bytes, service_flatten_eq_bridge]
